import Mathlib

/-!
Shallow embedding of `career_agent_gemini.py` (Proactive Career Opportunity
Monitor).  The five-stage langgraph pipeline is embedded as pure Lean
functions over an explicit `AgentState`; external effects (playwright
scraping, the Gemini call, `requests.post`, environment variables, the JSON
files on disk) are passed in explicitly as function parameters and returned
as explicit outputs, so that every node is a total function faithful to the
Python source.
-/

namespace CareerMonitor

/-- `{"raw_text": ..., "url": ...}` dict produced by the scraping functions. -/
structure RawRecord where
  raw_text : String
  url : String
deriving DecidableEq

/-- Pydantic model `FilteredJob` (also the dict shape stored in
`relevant_opportunities` / `new_opportunities` after `model_dump()`). -/
structure FilteredJob where
  title : String
  company : String
  reason_for_match : String
  url : String
  id : String
deriving DecidableEq

/-- The three concrete scraping functions referenced by
`plan_scraping_run`'s `websites_to_scan` list. -/
inductive AdapterId
  | internshala
  | unstop
  | remoteok
deriving DecidableEq

/-- One entry of `websites_to_scan`: `{"name": ..., "function": ..., "query": ...}`. -/
structure SiteTask where
  name : String
  function : AdapterId
  query : String
deriving DecidableEq

/-- Parsed contents of `user_preferences.json`: an optional `"keywords"`
key holding a list of strings, plus free-form criteria.  `keywords = none`
models the key being absent from the JSON object. -/
structure Preferences where
  keywords : Option (List String)
  criteria : List (String × String)
deriving DecidableEq

/-- `AgentState` TypedDict.  `run_log` messages are kept as plain strings
(the `content` of the `SystemMessage`s); the `add_messages` reducer
concatenates log deltas, which the node embeddings perform explicitly. -/
structure AgentState where
  user_preferences : Preferences
  websites_to_scan : List SiteTask
  raw_scraped_data : List RawRecord
  relevant_opportunities : List FilteredJob
  new_opportunities : List FilteredJob
  sent_job_ids : List String
  run_log : List String
deriving DecidableEq

/-- The two Telegram credentials read via `os.getenv`; `none` models an
unset environment variable. -/
structure Env where
  telegram_bot_token : Option String
  telegram_chat_id : Option String
deriving DecidableEq

/-- Python truthiness of an `os.getenv` result as tested by
`all([bot_token, chat_id])`: `None` and the empty string are falsy. -/
def py_truthy : Option String → Bool
  | none => false
  | some s => !s.isEmpty

/-- `plan_scraping_run`: loads preferences and the ledger, derives the
queries and the site list.  `ledger_file = none` models `sent_jobs.json`
missing or unparsable (`FileNotFoundError`/`JSONDecodeError` → `[]`).
`keywords[0]` raises `IndexError` when the `"keywords"` key is present and
maps to an empty list, which aborts the run: the result is `none` exactly
in that case (`List.head?` of the keyword list). -/
def plan_scraping_run (prefs : Preferences) (ledger_file : Option (List String)) :
    Option AgentState :=
  let sent_job_ids := ledger_file.getD []
  let keywords := prefs.keywords.getD ["developer"]
  let long_query := " ".intercalate (keywords.take 3)
  keywords.head?.map fun simple_query =>
    { user_preferences := prefs
      sent_job_ids := sent_job_ids
      websites_to_scan :=
        [ { name := "Internshala", function := AdapterId.internshala, query := long_query }
        , { name := "Unstop", function := AdapterId.unstop, query := long_query }
        , { name := "RemoteOK", function := AdapterId.remoteok, query := simple_query } ]
      raw_scraped_data := []
      relevant_opportunities := []
      new_opportunities := []
      run_log := ["Starting run with enhanced logging."] }

/-- `scrape_websites_node`: iterates over `websites_to_scan`; each call
`site["function"](page, site["query"])` either returns a record list
(`some`) or raises (`none`, caught by the `except` clause and logged, so a
raising adapter extends `all_raw_data` by nothing).  Returns the updated
state together with the contents written to `scraped_jobs_raw.json`
(written unconditionally). -/
def scrape_websites_node (scrape : AdapterId → String → Option (List RawRecord))
    (state : AgentState) : AgentState × List RawRecord :=
  let all_raw_data := state.websites_to_scan.foldl
    (fun acc site =>
      match scrape site.function site.query with
      | some raw_data => acc ++ raw_data
      | none => acc) []
  ( { state with
        raw_scraped_data := all_raw_data
        run_log := state.run_log ++
          ["Scraped " ++ toString all_raw_data.length ++ " raw data blocks."] },
    all_raw_data )

/-- `structure_and_filter_node`: if `raw_scraped_data` is empty (falsy),
returns `{"relevant_opportunities": []}` immediately (note: no `run_log`
delta in that branch).  Otherwise it makes exactly one call to the Gemini
service — the prompt is built from `user_preferences` only — and any
exception is caught and converted to an empty list.  `gemini ... = none`
models the call raising.  The second component counts service invocations. -/
def structure_and_filter_node (gemini : Preferences → Option (List FilteredJob))
    (state : AgentState) : AgentState × Nat :=
  if state.raw_scraped_data = [] then
    ({ state with relevant_opportunities := [] }, 0)
  else
    let relevant_opportunities := (gemini state.user_preferences).getD []
    ( { state with
          relevant_opportunities := relevant_opportunities
          run_log := state.run_log ++
            ["Filtered " ++ toString relevant_opportunities.length ++ " jobs."] },
      1 )

/-- The list comprehension of `deduplicate_node`:
`[job for job in candidates if job['id'] not in set(already_sent)]`.
`List.dedup` models the `set(...)` conversion. -/
def dedupe (candidates : List FilteredJob) (already_sent : List String) :
    List FilteredJob :=
  let sent_ids := already_sent.dedup
  candidates.filter fun job => !sent_ids.contains job.id

/-- `deduplicate_node`: pure state update, no file access. -/
def deduplicate_node (state : AgentState) : AgentState :=
  let new_opportunities := dedupe state.relevant_opportunities state.sent_job_ids
  { state with
      new_opportunities := new_opportunities
      run_log := state.run_log ++
        ["Found " ++ toString new_opportunities.length ++ " new jobs."] }

/-- `send_alert_node`.  If either credential is falsy the node returns `{}`
at once: no delivery attempt, no write to `sent_jobs.json` (the file keeps
its previous contents `ledger_file`).  Otherwise one `requests.post` is made
per job in `new_opportunities` (`post_ok` gives each call's outcome; a
failure is caught and only printed), then
`sent_job_ids + [job['id'] for job in new_jobs]` is written to
`sent_jobs.json`.  Result: updated state, the ids for which a delivery was
attempted, and the post-node contents of `sent_jobs.json`. -/
def send_alert_node (env : Env) (post_ok : String → Bool)
    (ledger_file : Option (List String)) (state : AgentState) :
    AgentState × List String × Option (List String) :=
  let new_jobs := state.new_opportunities
  if !(py_truthy env.telegram_bot_token && py_truthy env.telegram_chat_id) then
    (state, [], ledger_file)
  else
    let attempted := new_jobs.map fun job => job.id
    let updated_sent_ids := state.sent_job_ids ++ new_jobs.map fun job => job.id
    ( { state with
          run_log := state.run_log ++
            ["Sent alerts for " ++ toString new_jobs.length ++ " jobs."] },
      attempted, some updated_sent_ids )

/-- `should_send_alert`. -/
def should_send_alert (state : AgentState) : String :=
  if state.new_opportunities.length > 0 then "send_alert" else "end_run"

/-- The five graph nodes added to the `StateGraph`. -/
inductive GraphNode
  | planner
  | scraper
  | structure_and_filter
  | deduplicator
  | alerter
deriving DecidableEq

/-- The edge map of the compiled graph: unconditional edges
`planner → scraper → structure_and_filter → deduplicator`, a conditional
edge after `deduplicator` driven by `should_send_alert`, and
`alerter → END`.  `none` is `END`. -/
def graph_next (state : AgentState) : GraphNode → Option GraphNode
  | GraphNode.planner => some GraphNode.scraper
  | GraphNode.scraper => some GraphNode.structure_and_filter
  | GraphNode.structure_and_filter => some GraphNode.deduplicator
  | GraphNode.deduplicator =>
      if should_send_alert state = "send_alert" then some GraphNode.alerter else none
  | GraphNode.alerter => none

/-- The external collaborators of one run: credentials, the three scraping
functions (indexed by adapter and query), the Gemini service, and the
per-message delivery outcome. -/
structure Services where
  env : Env
  scrape : AdapterId → String → Option (List RawRecord)
  gemini : Preferences → Option (List FilteredJob)
  post_ok : String → Bool

/-- Observable outcome of one complete run of the compiled graph. -/
structure RunResult where
  final_state : AgentState
  visited : List GraphNode
  attempted_ids : List String
  ledger_file : Option (List String)
  snapshot_file : List RawRecord

/-- The run state reaching the conditional edge: the planner state pushed
through the scraper, the extraction/filter stage and the deduplicator, in
graph order. -/
def state_before_alert (svc : Services) (s1 : AgentState) : AgentState :=
  deduplicate_node (structure_and_filter_node svc.gemini
    (scrape_websites_node svc.scrape s1).1).1

/-- `app.invoke({})`: one run of the pipeline.  `ledger0` is the initial
contents of `sent_jobs.json` (`none` when missing/unparsable); the result
is `none` when planning raises (empty `"keywords"` list), otherwise the
stages run in graph order with the conditional branch after the
deduplicator taken from `graph_next`. -/
def run_pipeline (svc : Services) (prefs : Preferences)
    (ledger0 : Option (List String)) : Option RunResult :=
  (plan_scraping_run prefs ledger0).map fun s1 =>
    if graph_next (state_before_alert svc s1) GraphNode.deduplicator
        = some GraphNode.alerter then
      { final_state :=
          (send_alert_node svc.env svc.post_ok ledger0 (state_before_alert svc s1)).1
        visited := [GraphNode.planner, GraphNode.scraper,
          GraphNode.structure_and_filter, GraphNode.deduplicator, GraphNode.alerter]
        attempted_ids :=
          (send_alert_node svc.env svc.post_ok ledger0 (state_before_alert svc s1)).2.1
        ledger_file :=
          (send_alert_node svc.env svc.post_ok ledger0 (state_before_alert svc s1)).2.2
        snapshot_file := (scrape_websites_node svc.scrape s1).2 }
    else
      { final_state := state_before_alert svc s1
        visited := [GraphNode.planner, GraphNode.scraper,
          GraphNode.structure_and_filter, GraphNode.deduplicator]
        attempted_ids := []
        ledger_file := ledger0
        snapshot_file := (scrape_websites_node svc.scrape s1).2 }

/-! ## Helper lemmas -/

/-- The `set(...)` conversion inside `deduplicate_node` does not change the
membership test: filtering against `already_sent.dedup` equals filtering
against `already_sent` itself. -/
theorem dedupe_eq_filter (X : List FilteredJob) (S : List String) :
    dedupe X S = X.filter fun job => !S.contains job.id := by
  unfold dedupe
  refine List.filter_congr fun job _ => ?_
  simp [List.elem_iff]

/-- Membership characterization of `dedupe`. -/
theorem mem_dedupe (X : List FilteredJob) (S : List String) (o : FilteredJob) :
    o ∈ dedupe X S ↔ o ∈ X ∧ o.id ∉ S := by
  rw [dedupe_eq_filter]
  simp [List.mem_filter, List.elem_iff]

/-- `dedupe` is a sublist of its input (order preservation). -/
theorem dedupe_sublist (X : List FilteredJob) (S : List String) :
    List.Sublist (dedupe X S) X := by
  rw [dedupe_eq_filter]
  exact List.filter_sublist X

/-! ## Claims -/

/-- C2: the Deduplicator is a pure order-preserving filter: the new
opportunity list is exactly the candidates whose id is not in
`sent_job_ids`, in input order (a filter, hence a sublist with the
membership characterization), and no state field other than
`new_opportunities` and the appended `run_log` changes. -/
theorem dedupe_is_ordered_filter (state : AgentState) :
    (deduplicate_node state).new_opportunities
        = state.relevant_opportunities.filter (fun job => !state.sent_job_ids.contains job.id)
    ∧ List.Sublist (deduplicate_node state).new_opportunities state.relevant_opportunities
    ∧ (∀ o, o ∈ (deduplicate_node state).new_opportunities ↔
        o ∈ state.relevant_opportunities ∧ o.id ∉ state.sent_job_ids)
    ∧ (deduplicate_node state).user_preferences = state.user_preferences
    ∧ (deduplicate_node state).websites_to_scan = state.websites_to_scan
    ∧ (deduplicate_node state).raw_scraped_data = state.raw_scraped_data
    ∧ (deduplicate_node state).relevant_opportunities = state.relevant_opportunities
    ∧ (deduplicate_node state).sent_job_ids = state.sent_job_ids
    ∧ ∃ d, (deduplicate_node state).run_log = state.run_log ++ d := by
  refine ⟨dedupe_eq_filter _ _, dedupe_sublist _ _, mem_dedupe _ _, rfl, rfl, rfl, rfl, rfl, _, rfl⟩

/-- C9: deduplication is idempotent: filtering an already-filtered list
against the same sent-id set changes nothing. -/
theorem dedupe_idempotent (X : List FilteredJob) (S : List String) :
    dedupe (dedupe X S) S = dedupe X S := by
  simp only [dedupe_eq_filter, List.filter_filter]
  exact List.filter_congr fun a _ => by simp

/-! Concrete inputs used by counterexamples and witnesses. -/

/-- A candidate opportunity with id `"u2"`. -/
def jobU2 : FilteredJob :=
  { title := "T2", company := "C2", reason_for_match := "R2", url := "u2", id := "u2" }

/-- A candidate opportunity with id `"u1"`. -/
def jobU1 : FilteredJob :=
  { title := "T1", company := "C1", reason_for_match := "R1", url := "u1", id := "u1" }

/-- Run state just before the alerter: ledger holds `"u1"`, the
deduplicated set is the single novel candidate `"u2"`. -/
def stateC1 : AgentState :=
  { user_preferences := { keywords := some ["data"], criteria := [] }
    websites_to_scan := []
    raw_scraped_data := [{ raw_text := "t2", url := "u2" }]
    relevant_opportunities := [jobU2]
    new_opportunities := [jobU2]
    sent_job_ids := ["u1"]
    run_log := [] }

/-- Environment with the bot token unset and the chat id present. -/
def envNoToken : Env := { telegram_bot_token := none, telegram_chat_id := some "chat42" }

/-- Environment with both Telegram credentials present. -/
def envFull : Env := { telegram_bot_token := some "tok", telegram_chat_id := some "chat42" }

/-- C1 counterexample: with the bot token absent and the non-empty
deduplicated set `["u2"]`, `send_alert_node` returns `{}` before the ledger
write: `sent_jobs.json` stays `["u1"]` instead of the claimed
`["u1", "u2"]` (old ledger plus attempted ids). -/
theorem send_alert_missing_cred_counterexample :
    stateC1.new_opportunities ≠ []
    ∧ (send_alert_node envNoToken (fun _ => true) (some ["u1"]) stateC1).2.2 = some ["u1"]
    ∧ (send_alert_node envNoToken (fun _ => true) (some ["u1"]) stateC1).2.2
        ≠ some ["u1", "u2"] := by
  refine ⟨by simp [stateC1], rfl, ?_⟩
  intro h
  simp [send_alert_node, envNoToken, py_truthy, stateC1] at h

/-- C1 amended: if either notification credential is missing (unset or
empty), the Notifier performs no deliveries, does not touch the state, and
leaves the persisted ledger unchanged — the attempted ids are not appended. -/
theorem send_alert_missing_cred_noop (env : Env) (post_ok : String → Bool)
    (ledger_file : Option (List String)) (state : AgentState)
    (hne : state.new_opportunities ≠ [])
    (hcred : py_truthy env.telegram_bot_token = false
        ∨ py_truthy env.telegram_chat_id = false) :
    (send_alert_node env post_ok ledger_file state).2.1 = []
    ∧ (send_alert_node env post_ok ledger_file state).2.2 = ledger_file
    ∧ (send_alert_node env post_ok ledger_file state).1 = state := by
  unfold send_alert_node
  rcases hcred with h | h <;> simp [h]

/-- Witness for C1's amended theorem at the concrete counterexample state. -/
theorem send_alert_missing_cred_noop_witness :
    (send_alert_node envNoToken (fun _ => true) (some ["u1"]) stateC1).2.1 = []
    ∧ (send_alert_node envNoToken (fun _ => true) (some ["u1"]) stateC1).2.2 = some ["u1"]
    ∧ (send_alert_node envNoToken (fun _ => true) (some ["u1"]) stateC1).1 = stateC1 :=
  send_alert_missing_cred_noop envNoToken (fun _ => true) (some ["u1"]) stateC1
    (by simp [stateC1]) (Or.inl (by simp [envNoToken, py_truthy]))

/-- Run state in which the extraction stage produced two candidates that
share the novel id `"u1"`; the ledger is empty. -/
def stateC3 : AgentState :=
  { user_preferences := { keywords := some ["data"], criteria := [] }
    websites_to_scan := []
    raw_scraped_data := [{ raw_text := "t1", url := "u1" }]
    relevant_opportunities := [jobU1, jobU1]
    new_opportunities := []
    sent_job_ids := []
    run_log := [] }

/-- C3 counterexample: two candidates sharing the not-yet-sent id `"u1"`
both survive `deduplicate_node` (it only filters against the ledger), so
the Notifier attempts two deliveries for one distinct id and the persisted
ledger `["u1", "u1"]` contains a duplicate. -/
theorem notifier_duplicate_id_counterexample :
    (send_alert_node envFull (fun _ => true) (some []) (deduplicate_node stateC3)).2.1
        = ["u1", "u1"]
    ∧ ¬ ((send_alert_node envFull (fun _ => true) (some [])
          (deduplicate_node stateC3)).2.2.getD []).Nodup := by
  constructor
  · rfl
  · decide

/-- C3 amended: `deduplicate_node` only removes ids already in the ledger,
so a run whose candidate list repeats an id attempts one delivery per
candidate.  Provided the run's candidate ids are pairwise distinct and the
loaded ledger has no duplicates, the Notifier attempts at most one delivery
per distinct id and the persisted ledger is duplicate-free. -/
theorem notifier_nodup_of_distinct_candidates (env : Env) (post_ok : String → Bool)
    (ledger0 : Option (List String)) (state : AgentState)
    (hcred : (py_truthy env.telegram_bot_token && py_truthy env.telegram_chat_id) = true)
    (hX : (state.relevant_opportunities.map FilteredJob.id).Nodup)
    (hS : state.sent_job_ids.Nodup) :
    ((send_alert_node env post_ok ledger0 (deduplicate_node state)).2.1).Nodup
    ∧ ∃ L, (send_alert_node env post_ok ledger0 (deduplicate_node state)).2.2 = some L
        ∧ L.Nodup := by
  have hids : ((dedupe state.relevant_opportunities state.sent_job_ids).map
      FilteredJob.id).Nodup := by
    refine List.Nodup.sublist (List.Sublist.map FilteredJob.id ?_) hX
    exact dedupe_sublist _ _
  have hdisj : state.sent_job_ids.Disjoint
      ((dedupe state.relevant_opportunities state.sent_job_ids).map FilteredJob.id) := by
    intro a ha hmem
    rcases List.mem_map.mp hmem with ⟨j, hj, rfl⟩
    exact ((mem_dedupe _ _ j).mp hj).2 ha
  have happend : (state.sent_job_ids ++
      (dedupe state.relevant_opportunities state.sent_job_ids).map FilteredJob.id).Nodup :=
    List.Nodup.append hS hids hdisj
  unfold send_alert_node
  simp only [hcred, Bool.not_true, Bool.false_eq_true, if_false]
  refine ⟨hids, _, rfl, happend⟩

/-- Run state with pairwise-distinct candidate ids and a duplicate-free
ledger, for C3's amended theorem. -/
def stateC3W : AgentState :=
  { user_preferences := { keywords := some ["data"], criteria := [] }
    websites_to_scan := []
    raw_scraped_data := [{ raw_text := "t1", url := "u1" }]
    relevant_opportunities := [jobU1, jobU2]
    new_opportunities := []
    sent_job_ids := ["u0"]
    run_log := [] }

/-- Witness for C3's amended theorem: distinct candidate ids `"u1"`, `"u2"`
over the singleton ledger `["u0"]` yield a duplicate-free attempted list
and ledger. -/
theorem notifier_nodup_of_distinct_candidates_witness :
    ((send_alert_node envFull (fun _ => true) (some ["u0"])
        (deduplicate_node stateC3W)).2.1).Nodup
    ∧ ∃ L, (send_alert_node envFull (fun _ => true) (some ["u0"])
        (deduplicate_node stateC3W)).2.2 = some L ∧ L.Nodup :=
  notifier_nodup_of_distinct_candidates envFull (fun _ => true) (some ["u0"]) stateC3W
    (by decide) (by decide) (by decide)

/-! Frame lemmas: no stage between planning and the alerter changes the
loaded ledger `sent_job_ids`. -/

/-- A successful planning loads `sent_jobs.json` verbatim into the state
(empty list when the file is missing/unparsable). -/
theorem plan_sent_job_ids (prefs : Preferences) (ledger0 : Option (List String))
    (s : AgentState) (h : plan_scraping_run prefs ledger0 = some s) :
    s.sent_job_ids = ledger0.getD [] := by
  unfold plan_scraping_run at h
  rcases Option.map_eq_some'.mp h with ⟨q, _, rfl⟩
  rfl

theorem scrape_preserves_sent_ids (scrape : AdapterId → String → Option (List RawRecord))
    (state : AgentState) :
    (scrape_websites_node scrape state).1.sent_job_ids = state.sent_job_ids := rfl

theorem filter_preserves_sent_ids (gemini : Preferences → Option (List FilteredJob))
    (state : AgentState) :
    (structure_and_filter_node gemini state).1.sent_job_ids = state.sent_job_ids := by
  unfold structure_and_filter_node
  split <;> rfl

theorem dedup_preserves_sent_ids (state : AgentState) :
    (deduplicate_node state).sent_job_ids = state.sent_job_ids := rfl

theorem send_alert_preserves_new (env : Env) (post_ok : String → Bool)
    (ledger0 : Option (List String)) (state : AgentState) :
    (send_alert_node env post_ok ledger0 state).1.new_opportunities
      = state.new_opportunities := by
  unfold send_alert_node
  split <;> rfl

/-- Ledger membership after `send_alert_node`, in both credential cases:
an id is in the post-node file iff it was in the pre-run file or a delivery
was attempted for it this run. -/
theorem send_alert_ledger_mem (env : Env) (post_ok : String → Bool)
    (ledger0 : Option (List String)) (state : AgentState)
    (hload : state.sent_job_ids = ledger0.getD []) (i : String) :
    i ∈ (send_alert_node env post_ok ledger0 state).2.2.getD []
      ↔ i ∈ ledger0.getD [] ∨ i ∈ (send_alert_node env post_ok ledger0 state).2.1 := by
  unfold send_alert_node
  split
  · simp
  · simp [hload, List.mem_append]

/-- The conditional edge fires exactly on a non-empty deduplicated set. -/
theorem graph_next_dedup (state : AgentState) :
    graph_next state GraphNode.deduplicator = some GraphNode.alerter
      ↔ state.new_opportunities ≠ [] := by
  rcases h : state.new_opportunities with _ | ⟨a, l⟩ <;>
    simp [graph_next, should_send_alert, h]

/-- C4: ledger monotonicity.  In every run that reaches the Notifier,
whatever the individual delivery outcomes (`svc.post_ok` is arbitrary), the
persisted ledger holds exactly the old ids plus the ids attempted this run,
and no id of the old ledger is lost. -/
theorem run_ledger_monotone (svc : Services) (prefs : Preferences)
    (ledger0 : Option (List String)) (r : RunResult)
    (hrun : run_pipeline svc prefs ledger0 = some r)
    (halert : GraphNode.alerter ∈ r.visited) :
    (∀ i, i ∈ r.ledger_file.getD []
        ↔ (i ∈ ledger0.getD [] ∨ i ∈ r.attempted_ids))
    ∧ (∀ i, i ∈ ledger0.getD [] → i ∈ r.ledger_file.getD []) := by
  unfold run_pipeline at hrun
  simp only [Option.map_eq_some'] at hrun
  obtain ⟨s1, hplan, hr⟩ := hrun
  have hload : (state_before_alert svc s1).sent_job_ids = ledger0.getD [] := by
    unfold state_before_alert
    rw [dedup_preserves_sent_ids, filter_preserves_sent_ids, scrape_preserves_sent_ids]
    exact plan_sent_job_ids _ _ _ hplan
  by_cases hc : graph_next (state_before_alert svc s1) GraphNode.deduplicator
      = some GraphNode.alerter
  · rw [if_pos hc] at hr
    subst hr
    exact ⟨fun i => send_alert_ledger_mem _ _ _ _ hload i,
      fun i hi => (send_alert_ledger_mem _ _ _ _ hload i).mpr (Or.inl hi)⟩
  · rw [if_neg hc] at hr
    subst hr
    simp at halert

/-- C5: branch correctness.  An empty deduplicated set means the alerter
node is never visited, no delivery is attempted and `sent_jobs.json`
retains its pre-run contents; a non-empty set routes the run through the
alerter; and the alerter's only outgoing edge is END. -/
theorem run_branch_correctness (svc : Services) (prefs : Preferences)
    (ledger0 : Option (List String)) (r : RunResult)
    (hrun : run_pipeline svc prefs ledger0 = some r) :
    (r.final_state.new_opportunities = [] →
        GraphNode.alerter ∉ r.visited ∧ r.attempted_ids = [] ∧ r.ledger_file = ledger0)
    ∧ (r.final_state.new_opportunities ≠ [] → GraphNode.alerter ∈ r.visited)
    ∧ (∀ s, graph_next s GraphNode.alerter = none) := by
  unfold run_pipeline at hrun
  simp only [Option.map_eq_some'] at hrun
  obtain ⟨s1, hplan, hr⟩ := hrun
  by_cases hc : graph_next (state_before_alert svc s1) GraphNode.deduplicator
      = some GraphNode.alerter
  · rw [if_pos hc] at hr
    subst hr
    have hne := (graph_next_dedup _).mp hc
    refine ⟨?_, fun _ => by simp, fun s => rfl⟩
    intro h0
    rw [send_alert_preserves_new] at h0
    exact absurd h0 hne
  · rw [if_neg hc] at hr
    subst hr
    have he : (state_before_alert svc s1).new_opportunities = [] := by
      by_contra hne
      exact hc ((graph_next_dedup _).mpr hne)
    exact ⟨fun _ => ⟨by simp, rfl, rfl⟩, fun hne => absurd he hne, fun s => rfl⟩

/-- Preference file with keywords `["data"]`. -/
def prefsW : Preferences := { keywords := some ["data"], criteria := [] }

/-- Placeholder run result (default for `Option.getD`). -/
def rDefault : RunResult :=
  { final_state :=
      { user_preferences := prefsW, websites_to_scan := [], raw_scraped_data := []
        relevant_opportunities := [], new_opportunities := [], sent_job_ids := []
        run_log := [] }
    visited := [], attempted_ids := [], ledger_file := none, snapshot_file := [] }

/-- Collaborators for C4's witness run: one adapter yields a record, the
service extracts the novel candidate `"u1"`, deliveries succeed. -/
def svcW4 : Services :=
  { env := envFull
    scrape := fun a _ =>
      match a with
      | AdapterId.internshala => some [{ raw_text := "rt", url := "u1" }]
      | _ => none
    gemini := fun _ => some [jobU1]
    post_ok := fun _ => true }

/-- The concrete run result of C4's witness run. -/
def rW4 : RunResult := (run_pipeline svcW4 prefsW (some ["u0"])).getD rDefault

/-- Witness for C4 on a concrete run that reaches the alerter. -/
theorem run_ledger_monotone_witness :
    (∀ i, i ∈ rW4.ledger_file.getD []
        ↔ (i ∈ (some ["u0"] : Option (List String)).getD [] ∨ i ∈ rW4.attempted_ids))
    ∧ (∀ i, i ∈ (some ["u0"] : Option (List String)).getD []
        → i ∈ rW4.ledger_file.getD []) :=
  run_ledger_monotone svcW4 prefsW (some ["u0"]) rW4 (by rfl) (by decide)

/-- Collaborators for C5's witness run: the extraction service fails, so
the deduplicated set is empty and the branch goes straight to END. -/
def svcW5 : Services :=
  { env := envFull
    scrape := fun a _ =>
      match a with
      | AdapterId.internshala => some [{ raw_text := "rt", url := "u1" }]
      | _ => none
    gemini := fun _ => none
    post_ok := fun _ => true }

/-- The concrete run result of C5's witness run. -/
def rW5 : RunResult := (run_pipeline svcW5 prefsW (some ["u0"])).getD rDefault

/-- Witness for C5 on a concrete run with an empty deduplicated set. -/
theorem run_branch_correctness_witness :
    (rW5.final_state.new_opportunities = [] →
        GraphNode.alerter ∉ rW5.visited ∧ rW5.attempted_ids = []
          ∧ rW5.ledger_file = some ["u0"])
    ∧ (rW5.final_state.new_opportunities ≠ [] → GraphNode.alerter ∈ rW5.visited)
    ∧ (∀ s, graph_next s GraphNode.alerter = none) :=
  run_branch_correctness svcW5 prefsW (some ["u0"]) rW5 (by rfl)

/-- The scraping loop of `scrape_websites_node`, with the accumulator made
explicit: each surviving adapter extends the aggregate, a raising one
contributes nothing. -/
theorem scrape_foldl_eq (scrape : AdapterId → String → Option (List RawRecord))
    (sites : List SiteTask) (acc : List RawRecord) :
    sites.foldl
      (fun acc site =>
        match scrape site.function site.query with
        | some raw_data => acc ++ raw_data
        | none => acc) acc
    = acc ++ (sites.filterMap fun site => scrape site.function site.query).flatten := by
  induction sites generalizing acc with
  | nil => simp
  | cons s rest ih =>
    cases h : scrape s.function s.query <;>
      simp [h, ih, List.append_assoc]

/-- C6: the Scrape Coordinator is total over adapter outcomes: the
aggregate (both in the state and in the snapshot file) is the
concatenation, in adapter order, of the outputs of exactly the non-raising
adapters; if every adapter raises, the aggregate is empty. -/
theorem scrape_aggregates_surviving
    (scrape : AdapterId → String → Option (List RawRecord)) (state : AgentState) :
    (scrape_websites_node scrape state).1.raw_scraped_data
        = (state.websites_to_scan.filterMap fun site =>
            scrape site.function site.query).flatten
    ∧ (scrape_websites_node scrape state).2
        = (state.websites_to_scan.filterMap fun site =>
            scrape site.function site.query).flatten
    ∧ ((∀ site ∈ state.websites_to_scan, scrape site.function site.query = none) →
        (scrape_websites_node scrape state).1.raw_scraped_data = []) := by
  have hbase :
      (state.websites_to_scan.foldl
        (fun acc site =>
          match scrape site.function site.query with
          | some raw_data => acc ++ raw_data
          | none => acc) [])
      = (state.websites_to_scan.filterMap fun site =>
          scrape site.function site.query).flatten := by
    simpa using scrape_foldl_eq scrape state.websites_to_scan []
  refine ⟨hbase, hbase, fun hall => ?_⟩
  have : (state.websites_to_scan.filterMap fun site =>
      scrape site.function site.query) = [] :=
    List.filterMap_eq_nil_iff.mpr hall
  simp [scrape_websites_node]
  simp [hbase, this]

/-- A state whose planned site list is the three production adapters. -/
def stateW6 : AgentState :=
  { user_preferences := prefsW
    websites_to_scan :=
      [ { name := "Internshala", function := AdapterId.internshala, query := "data" }
      , { name := "Unstop", function := AdapterId.unstop, query := "data" }
      , { name := "RemoteOK", function := AdapterId.remoteok, query := "data" } ]
    raw_scraped_data := []
    relevant_opportunities := []
    new_opportunities := []
    sent_job_ids := []
    run_log := [] }

/-- Witness for C6: with every adapter raising, the aggregate is empty. -/
theorem scrape_aggregates_surviving_witness :
    (scrape_websites_node (fun _ _ => none) stateW6).1.raw_scraped_data = [] :=
  (scrape_aggregates_surviving (fun _ _ => none) stateW6).2.2 (by decide)

/-- C7: a failing extraction service (`gemini ... = none` models every
timeout/malformed response/raised exception) is caught at the stage
boundary: the stage yields an empty opportunity list and the graph's next
node after the stage is the deduplicator. -/
theorem extraction_failure_degrades (gemini : Preferences → Option (List FilteredJob))
    (state : AgentState) (hfail : gemini state.user_preferences = none) :
    (structure_and_filter_node gemini state).1.relevant_opportunities = []
    ∧ graph_next ((structure_and_filter_node gemini state).1)
        GraphNode.structure_and_filter = some GraphNode.deduplicator := by
  refine ⟨?_, rfl⟩
  unfold structure_and_filter_node
  split
  · rfl
  · simp [hfail]

/-- Witness for C7 at a concrete state with a failing service. -/
theorem extraction_failure_degrades_witness :
    (structure_and_filter_node (fun _ => none) stateC1).1.relevant_opportunities = []
    ∧ graph_next ((structure_and_filter_node (fun _ => none) stateC1).1)
        GraphNode.structure_and_filter = some GraphNode.deduplicator :=
  extraction_failure_degrades (fun _ => none) stateC1 rfl

/-- C8: empty-input short-circuit: with no raw records the stage returns an
empty opportunity list and performs zero service invocations. -/
theorem extraction_empty_input_short_circuit
    (gemini : Preferences → Option (List FilteredJob)) (state : AgentState)
    (hempty : state.raw_scraped_data = []) :
    (structure_and_filter_node gemini state).1.relevant_opportunities = []
    ∧ (structure_and_filter_node gemini state).2 = 0 := by
  unfold structure_and_filter_node
  rw [if_pos hempty]
  exact ⟨rfl, rfl⟩

/-- Witness for C8 at a concrete state with no raw records; the service
shown would return a candidate if it were ever called. -/
theorem extraction_empty_input_short_circuit_witness :
    (structure_and_filter_node (fun _ => some [jobU1]) stateW6).1.relevant_opportunities = []
    ∧ (structure_and_filter_node (fun _ => some [jobU1]) stateW6).2 = 0 :=
  extraction_empty_input_short_circuit (fun _ => some [jobU1]) stateW6 rfl

/-- C10: planning can abort, exactly in the empty-keywords case: it
succeeds iff `"keywords"` is absent or a non-empty list; a present-and-empty
list aborts the whole run during planning (`keywords[0]` raises), while an
absent key falls back to the default list `["developer"]`, which becomes
every site's query. -/
theorem planning_aborts_iff_empty_keywords (prefs : Preferences)
    (ledger0 : Option (List String)) :
    ((plan_scraping_run prefs ledger0).isSome ↔ prefs.keywords ≠ some [])
    ∧ (prefs.keywords = some [] →
        ∀ svc, run_pipeline svc prefs ledger0 = none)
    ∧ (prefs.keywords = none →
        ∃ s, plan_scraping_run prefs ledger0 = some s
          ∧ (s.websites_to_scan.map fun t => t.query)
              = ["developer", "developer", "developer"]) := by
  obtain ⟨kw, crit⟩ := prefs
  rcases kw with _ | kwlist
  · exact ⟨⟨fun _ => by simp, fun _ => rfl⟩, fun h => by simp at h,
      fun _ => ⟨_, rfl, rfl⟩⟩
  · rcases kwlist with _ | ⟨k, ks⟩
    · exact ⟨⟨fun h => by simp [plan_scraping_run] at h, fun h => absurd rfl h⟩,
        fun _ svc => rfl, fun h => by simp at h⟩
    · exact ⟨⟨fun _ => by simp, fun _ => rfl⟩, fun h => by simp at h,
        fun h => by simp at h⟩

/-- Witness for C10 with the `"keywords"` key absent. -/
theorem planning_aborts_iff_empty_keywords_witness :
    ((plan_scraping_run { keywords := none, criteria := [] } none).isSome
        ↔ ({ keywords := none, criteria := [] } : Preferences).keywords ≠ some [])
    ∧ (({ keywords := none, criteria := [] } : Preferences).keywords = some [] →
        ∀ svc, run_pipeline svc { keywords := none, criteria := [] } none = none)
    ∧ (({ keywords := none, criteria := [] } : Preferences).keywords = none →
        ∃ s, plan_scraping_run { keywords := none, criteria := [] } none = some s
          ∧ (s.websites_to_scan.map fun t => t.query)
              = ["developer", "developer", "developer"]) :=
  planning_aborts_iff_empty_keywords { keywords := none, criteria := [] } none

end CareerMonitor
